import Mathlib

/-!
Verification of the MQTT relay (`mqtt_relay.py`) of the
smart-key-management-web repository.

The relay subscribes to a Mosquitto broker on a configured topic and
republishes every received message to RabbitMQ's MQTT plugin.  We embed the
message handler `on_message`, the startup/shutdown control flow of `main`,
and the pieces of the Python runtime that the handler's behaviour depends
on: strict UTF-8 decoding (`bytes.decode("utf-8")`), UTF-8 encoding of a
`str` payload performed by paho's `publish`, the acceptance behaviour of
`json.loads`, and the semantics of the Python membership test
`"tag_id" not in payload` (which raises `TypeError` on numbers, booleans
and `None`).

Bytes and Python strings are embedded as `List Nat` (byte values,
respectively Unicode code points).
-/

namespace MqttRelay

/-! ## UTF-8, as implemented by Python's strict codec (RFC 3629)

`utf8DecodeOne` decodes one scalar value from the front of a byte list,
rejecting overlong forms, surrogates (`ED A0..` and above), and code points
beyond `U+10FFFF`, exactly as `bytes.decode("utf-8")` does.  `utf8Decode`
iterates it; the fuel `l.length` is sufficient because every step consumes
at least one byte. -/

def utf8Cont (b : Nat) : Prop := 128 ≤ b ∧ b < 192

instance (b : Nat) : Decidable (utf8Cont b) := by
  unfold utf8Cont; infer_instance

def utf8Decode2 (b0 : Nat) : List Nat → Option (Nat × List Nat)
  | b1 :: r =>
      if utf8Cont b1 then some ((b0 - 192) * 64 + (b1 - 128), r) else none
  | _ => none

def utf8Decode3 (b0 : Nat) : List Nat → Option (Nat × List Nat)
  | b1 :: b2 :: r =>
      if utf8Cont b1 ∧ utf8Cont b2 ∧ (b0 = 224 → 160 ≤ b1) ∧ (b0 = 237 → b1 < 160) then
        some ((b0 - 224) * 4096 + (b1 - 128) * 64 + (b2 - 128), r)
      else none
  | _ => none

def utf8Decode4 (b0 : Nat) : List Nat → Option (Nat × List Nat)
  | b1 :: b2 :: b3 :: r =>
      if utf8Cont b1 ∧ utf8Cont b2 ∧ utf8Cont b3
          ∧ (b0 = 240 → 144 ≤ b1) ∧ (b0 = 244 → b1 < 144) then
        some ((b0 - 240) * 262144 + (b1 - 128) * 4096 + (b2 - 128) * 64 + (b3 - 128), r)
      else none
  | _ => none

def utf8DecodeOne : List Nat → Option (Nat × List Nat)
  | [] => none
  | b0 :: rest =>
      if b0 < 128 then some (b0, rest)
      else if b0 < 194 then none
      else if b0 < 224 then utf8Decode2 b0 rest
      else if b0 < 240 then utf8Decode3 b0 rest
      else if b0 < 245 then utf8Decode4 b0 rest
      else none

def utf8DecodeAux : Nat → List Nat → Option (List Nat)
  | _, [] => some []
  | 0, _ :: _ => none
  | fuel + 1, b :: rest =>
      match utf8DecodeOne (b :: rest) with
      | none => none
      | some (c, r) => (utf8DecodeAux fuel r).map (fun s => c :: s)

def utf8Decode (l : List Nat) : Option (List Nat) :=
  utf8DecodeAux l.length l

/-- UTF-8 encoding of one code point, as Python's `str.encode("utf-8")`
produces it for scalar values. -/
def utf8EncodeChar (c : Nat) : List Nat :=
  if c < 128 then [c]
  else if c < 2048 then [192 + c / 64, 128 + c % 64]
  else if c < 65536 then [224 + c / 4096, 128 + c / 64 % 64, 128 + c % 64]
  else [240 + c / 262144, 128 + c / 4096 % 64, 128 + c / 64 % 64, 128 + c % 64]

def utf8Encode : List Nat → List Nat
  | [] => []
  | c :: s => utf8EncodeChar c ++ utf8Encode s

theorem utf8Decode2_append (b0 : Nat) (rest : List Nat) (c : Nat) (r : List Nat)
    (hlo : 194 ≤ b0) (hhi : b0 < 224)
    (h : utf8Decode2 b0 rest = some (c, r)) : utf8EncodeChar c ++ r = b0 :: rest := by
  match rest with
  | [] => simp [utf8Decode2] at h
  | b1 :: r1 =>
    unfold utf8Decode2 at h
    dsimp only at h
    split_ifs at h with hc
    obtain ⟨hc1, hc2⟩ := hc
    simp only [Option.some.injEq, Prod.mk.injEq] at h
    obtain ⟨hceq, hreq⟩ := h
    subst hceq hreq
    unfold utf8EncodeChar
    rw [if_neg (by omega), if_pos (by omega)]
    simp only [List.cons_append, List.nil_append, List.cons.injEq]
    refine ⟨by omega, by omega, trivial⟩

theorem utf8Decode3_append (b0 : Nat) (rest : List Nat) (c : Nat) (r : List Nat)
    (hlo : 224 ≤ b0) (hhi : b0 < 240)
    (h : utf8Decode3 b0 rest = some (c, r)) : utf8EncodeChar c ++ r = b0 :: rest := by
  match rest with
  | [] => simp [utf8Decode3] at h
  | [b1] => simp [utf8Decode3] at h
  | b1 :: b2 :: r2 =>
    unfold utf8Decode3 at h
    dsimp only at h
    split_ifs at h with hc
    obtain ⟨⟨hc1a, hc1b⟩, ⟨hc2a, hc2b⟩, hc3, hc4⟩ := hc
    simp only [Option.some.injEq, Prod.mk.injEq] at h
    obtain ⟨hceq, hreq⟩ := h
    subst hceq hreq
    unfold utf8EncodeChar
    have hge : ¬ ((b0 - 224) * 4096 + (b1 - 128) * 64 + (b2 - 128) < 2048) := by
      rcases Nat.eq_or_lt_of_le hlo with he | hl
      · have h160 : 160 ≤ b1 := hc3 he.symm
        omega
      · omega
    rw [if_neg (by omega), if_neg hge, if_pos (by omega)]
    simp only [List.cons_append, List.nil_append, List.cons.injEq]
    refine ⟨by omega, by omega, by omega, trivial⟩

theorem utf8Decode4_append (b0 : Nat) (rest : List Nat) (c : Nat) (r : List Nat)
    (hlo : 240 ≤ b0) (hhi : b0 < 245)
    (h : utf8Decode4 b0 rest = some (c, r)) : utf8EncodeChar c ++ r = b0 :: rest := by
  match rest with
  | [] => simp [utf8Decode4] at h
  | [b1] => simp [utf8Decode4] at h
  | [b1, b2] => simp [utf8Decode4] at h
  | b1 :: b2 :: b3 :: r3 =>
    unfold utf8Decode4 at h
    dsimp only at h
    split_ifs at h with hc
    obtain ⟨⟨hc1a, hc1b⟩, ⟨hc2a, hc2b⟩, ⟨hc3a, hc3b⟩, hc4, hc5⟩ := hc
    simp only [Option.some.injEq, Prod.mk.injEq] at h
    obtain ⟨hceq, hreq⟩ := h
    subst hceq hreq
    unfold utf8EncodeChar
    have hge : ¬ ((b0 - 240) * 262144 + (b1 - 128) * 4096 + (b2 - 128) * 64 + (b3 - 128)
        < 65536) := by
      rcases Nat.eq_or_lt_of_le hlo with he | hl
      · have h144 : 144 ≤ b1 := hc4 he.symm
        omega
      · omega
    rw [if_neg (by omega), if_neg (by omega), if_neg hge]
    simp only [List.cons_append, List.nil_append, List.cons.injEq]
    refine ⟨by omega, by omega, by omega, by omega, trivial⟩

theorem utf8DecodeOne_append (l : List Nat) (c : Nat) (r : List Nat)
    (h : utf8DecodeOne l = some (c, r)) : utf8EncodeChar c ++ r = l := by
  match l with
  | [] => simp [utf8DecodeOne] at h
  | b0 :: rest =>
    unfold utf8DecodeOne at h
    dsimp only at h
    split_ifs at h with h1 h2 h3 h4 h5
    · simp only [Option.some.injEq, Prod.mk.injEq] at h
      obtain ⟨hceq, hreq⟩ := h
      subst hceq hreq
      unfold utf8EncodeChar
      rw [if_pos h1]
      rfl
    · exact utf8Decode2_append b0 rest c r (by omega) h3 h
    · exact utf8Decode3_append b0 rest c r (by omega) h4 h
    · exact utf8Decode4_append b0 rest c r (by omega) h5 h

theorem utf8DecodeAux_encode (fuel : Nat) :
    ∀ l s, utf8DecodeAux fuel l = some s → utf8Encode s = l := by
  induction fuel with
  | zero =>
    intro l s h
    match l with
    | [] =>
      simp only [utf8DecodeAux, Option.some.injEq] at h
      subst h
      rfl
    | _ :: _ => simp [utf8DecodeAux] at h
  | succ n ih =>
    intro l s h
    match l with
    | [] =>
      simp only [utf8DecodeAux, Option.some.injEq] at h
      subst h
      rfl
    | b :: rest =>
      unfold utf8DecodeAux at h
      cases hd : utf8DecodeOne (b :: rest) with
      | none => rw [hd] at h; simp at h
      | some p =>
        obtain ⟨c, r⟩ := p
        rw [hd] at h
        simp only [Option.map_eq_some'] at h
        obtain ⟨s1, hs1, hcons⟩ := h
        subst hcons
        have her : utf8Encode s1 = r := ih r s1 hs1
        show utf8EncodeChar c ++ utf8Encode s1 = b :: rest
        rw [her]
        exact utf8DecodeOne_append _ _ _ hd

theorem utf8Decode_encode (l s : List Nat) (h : utf8Decode l = some s) :
    utf8Encode s = l :=
  utf8DecodeAux_encode l.length l s h

/-! ## `json.loads` as used by `on_message`

`on_message` only uses the parse result for the membership test
`"tag_id" not in payload`, so the embedding records the shape of the parsed
value but collapses all numbers (Python `int`/`float`, including the
accepted constants `NaN`, `Infinity`, `-Infinity`) to `jnum`: the membership
test treats them all alike.  The parser accepts exactly the strings
`json.loads` accepts: RFC 8259 values plus the three constants, with strict
rejection of unescaped control characters in strings.  Characters are
Unicode code points encoded as `Nat`. -/

inductive JValue where
  | jnull
  | jbool (b : Bool)
  | jnum
  | jstr (s : List Nat)
  | jarr (xs : List JValue)
  | jobj (fields : List (List Nat × JValue))

def skipWs : List Nat → List Nat
  | [] => []
  | c :: rest => if c = 32 ∨ c = 9 ∨ c = 10 ∨ c = 13 then skipWs rest else c :: rest

def hexVal (c : Nat) : Option Nat :=
  if 48 ≤ c ∧ c ≤ 57 then some (c - 48)
  else if 65 ≤ c ∧ c ≤ 70 then some (c - 55)
  else if 97 ≤ c ∧ c ≤ 102 then some (c - 87)
  else none

def escChar (e : Nat) : Option Nat :=
  if e = 34 then some 34
  else if e = 92 then some 92
  else if e = 47 then some 47
  else if e = 98 then some 8
  else if e = 102 then some 12
  else if e = 110 then some 10
  else if e = 114 then some 13
  else if e = 116 then some 9
  else none

/-- Parse the remainder of a JSON string literal (the opening quote already
consumed), returning the decoded code points and the input after the closing
quote. -/
def parseStringRest : List Nat → Option (List Nat × List Nat)
  | [] => none
  | 34 :: rest => some ([], rest)
  | 92 :: 117 :: h1 :: h2 :: h3 :: h4 :: rest =>
      match hexVal h1, hexVal h2, hexVal h3, hexVal h4 with
      | some v1, some v2, some v3, some v4 =>
          (parseStringRest rest).map
            (fun p => ((v1 * 4096 + v2 * 256 + v3 * 16 + v4) :: p.1, p.2))
      | _, _, _, _ => none
  | 92 :: e :: rest =>
      match escChar e with
      | some ch => (parseStringRest rest).map (fun p => (ch :: p.1, p.2))
      | none => none
  | c :: rest =>
      if c < 32 then none
      else (parseStringRest rest).map (fun p => (c :: p.1, p.2))

def isDigitN (c : Nat) : Bool := decide (48 ≤ c) && decide (c ≤ 57)

def dropDigits : List Nat → List Nat
  | [] => []
  | c :: rest => if isDigitN c then dropDigits rest else c :: rest

def parseFrac : List Nat → Option (List Nat)
  | 46 :: c :: rest => if isDigitN c then some (dropDigits rest) else none
  | l => some l

def parseExpPart : List Nat → Option (List Nat)
  | [] => some []
  | c :: rest =>
      if c = 101 ∨ c = 69 then
        match rest with
        | [] => none
        | s1 :: rest2 =>
            if s1 = 43 ∨ s1 = 45 then
              match rest2 with
              | [] => none
              | d :: rest3 => if isDigitN d then some (dropDigits rest3) else none
            else if isDigitN s1 then some (dropDigits rest2) else none
      else some (c :: rest)

/-- Validate a JSON number whose optional minus sign is already consumed;
returns the input following the number. -/
def parseNumberTail (l : List Nat) : Option (List Nat) :=
  match l with
  | [] => none
  | c :: rest =>
      if c = 48 then
        match parseFrac rest with
        | some r2 => parseExpPart r2
        | none => none
      else if isDigitN c then
        match parseFrac (dropDigits rest) with
        | some r2 => parseExpPart r2
        | none => none
      else none

mutual

def parseValue : Nat → List Nat → Option (JValue × List Nat)
  | 0, _ => none
  | fuel + 1, l =>
      match l with
      | 34 :: rest => (parseStringRest rest).map (fun p => (JValue.jstr p.1, p.2))
      | 123 :: rest =>
          match skipWs rest with
          | 125 :: r2 => some (JValue.jobj [], r2)
          | r => (parseObjectItems fuel r).map (fun p => (JValue.jobj p.1, p.2))
      | 91 :: rest =>
          match skipWs rest with
          | 93 :: r2 => some (JValue.jarr [], r2)
          | r => (parseArrayItems fuel r).map (fun p => (JValue.jarr p.1, p.2))
      | 110 :: 117 :: 108 :: 108 :: rest => some (JValue.jnull, rest)
      | 116 :: 114 :: 117 :: 101 :: rest => some (JValue.jbool true, rest)
      | 102 :: 97 :: 108 :: 115 :: 101 :: rest => some (JValue.jbool false, rest)
      | 78 :: 97 :: 78 :: rest => some (JValue.jnum, rest)
      | 73 :: 110 :: 102 :: 105 :: 110 :: 105 :: 116 :: 121 :: rest =>
          some (JValue.jnum, rest)
      | 45 :: 73 :: 110 :: 102 :: 105 :: 110 :: 105 :: 116 :: 121 :: rest =>
          some (JValue.jnum, rest)
      | 45 :: rest => (parseNumberTail rest).map (fun r => (JValue.jnum, r))
      | c :: rest =>
          if isDigitN c then (parseNumberTail (c :: rest)).map (fun r => (JValue.jnum, r))
          else none
      | [] => none

def parseArrayItems : Nat → List Nat → Option (List JValue × List Nat)
  | 0, _ => none
  | fuel + 1, l =>
      match parseValue fuel l with
      | none => none
      | some (v, r) =>
          match skipWs r with
          | 44 :: r2 => (parseArrayItems fuel (skipWs r2)).map (fun p => (v :: p.1, p.2))
          | 93 :: r2 => some ([v], r2)
          | _ => none

def parseObjectItems : Nat → List Nat → Option (List (List Nat × JValue) × List Nat)
  | 0, _ => none
  | fuel + 1, l =>
      match l with
      | 34 :: rest =>
          match parseStringRest rest with
          | none => none
          | some (key, r) =>
              match skipWs r with
              | 58 :: r2 =>
                  match parseValue fuel (skipWs r2) with
                  | none => none
                  | some (v, r3) =>
                      match skipWs r3 with
                      | 44 :: r4 => (parseObjectItems fuel (skipWs r4)).map
                          (fun p => ((key, v) :: p.1, p.2))
                      | 125 :: r4 => some ([(key, v)], r4)
                      | _ => none
              | _ => none
      | _ => none

end

/-- Acceptance and result of `json.loads` on a decoded payload string.  The
fuel `2 * s.length + 8` bounds the recursion depth: every two nested parser
frames consume at least one input character. -/
def json_loads (s : List Nat) : Option JValue :=
  match parseValue (2 * s.length + 8) (skipWs s) with
  | some (v, r) => if (skipWs r).isEmpty then some v else none
  | none => none

/-! ## The Python membership test `"tag_id" in payload`

Python's `in` on a `dict` is key membership, on a `list` element equality,
on a `str` substring containment; on `int`, `float`, `bool` and `None` it
raises `TypeError`, which `on_message` does not catch. `none` models the
raised `TypeError`. -/

def tagIdCodes : List Nat := [116, 97, 103, 95, 105, 100]

def listStartsWith : List Nat → List Nat → Bool
  | [], _ => true
  | _ :: _, [] => false
  | a1 :: t1, b1 :: t2 => a1 == b1 && listStartsWith t1 t2

def hasSubstr (needle : List Nat) : List Nat → Bool
  | [] => listStartsWith needle []
  | c :: rest => listStartsWith needle (c :: rest) || hasSubstr needle rest

def jvalIsTagIdStr : JValue → Bool
  | JValue.jstr s => s == tagIdCodes
  | _ => false

def pyContainsTagId : JValue → Option Bool
  | JValue.jobj fields => some (fields.any (fun kv => kv.1 == tagIdCodes))
  | JValue.jarr xs => some (xs.any jvalIsTagIdStr)
  | JValue.jstr s => some (hasSubstr tagIdCodes s)
  | _ => none

/-! ## The message handler `on_message`

Embeds `mqtt_relay.py` lines 84-99.  Inputs: the process-wide `RFID_TOPIC`
value, the return code and message id the destination client's `publish`
call reports, and the received message's topic, raw payload bytes and QoS.
The result records every `rabbitmq_client.publish` call made (topic,
payload bytes as paho encodes the `str`, QoS), the log records emitted, and
the exception the handler raises, if any (`UnicodeDecodeError` from
`msg.payload.decode("utf-8")`, `TypeError` from `"tag_id" not in payload`
on a number/bool/None; only `json.JSONDecodeError` is caught). -/

inductive PyErr where
  | unicodeDecodeError
  | typeError
  deriving DecidableEq

inductive LogEvent where
  | infoReceived (topic : List Nat) (payloadStr : List Nat)
  | warnMissingTagId
  | warnNotJson
  | infoForwarded (mid : Nat)
  | errorPublishFailed (rc : Nat)
  deriving DecidableEq

def LogEvent.isWarning : LogEvent → Bool
  | LogEvent.warnMissingTagId => true
  | LogEvent.warnNotJson => true
  | _ => false

structure OnMessageResult where
  publishes : List (List Nat × List Nat × Nat)
  logs : List LogEvent
  exc : Option PyErr
  deriving DecidableEq

/-- The warnings the `try`/`except` block around `json.loads` produces:
`none` models the uncaught `TypeError` raised by the membership test. -/
def parseWarnings (s : List Nat) : Option (List LogEvent) :=
  match json_loads s with
  | some v =>
      match pyContainsTagId v with
      | none => none
      | some true => some []
      | some false => some [LogEvent.warnMissingTagId]
  | none => some [LogEvent.warnNotJson]

/-- The log record emitted for the outcome of `rabbitmq_client.publish`
(`MQTT_ERR_SUCCESS = 0`). -/
def pubLogEvent (pubRc pubMid : Nat) : LogEvent :=
  if pubRc = 0 then LogEvent.infoForwarded pubMid else LogEvent.errorPublishFailed pubRc

def on_message (rfidTopic : List Nat) (pubRc pubMid : Nat)
    (msgTopic msgPayload : List Nat) (msgQos : Nat) : OnMessageResult :=
  match utf8Decode msgPayload with
  | none => ⟨[], [], some PyErr.unicodeDecodeError⟩
  | some payloadStr =>
      match parseWarnings payloadStr with
      | none => ⟨[], [LogEvent.infoReceived msgTopic payloadStr], some PyErr.typeError⟩
      | some warns =>
          ⟨[(rfidTopic, utf8Encode payloadStr, 1)],
           LogEvent.infoReceived msgTopic payloadStr :: warns ++ [pubLogEvent pubRc pubMid],
           none⟩

/-- A message reaches the publish call exactly when its payload decodes and
the parse step does not raise. -/
def parseStepOk (s : List Nat) : Bool :=
  (parseWarnings s).isSome

/-! ## MQTT topic-filter matching

The relay subscribes with `client.subscribe(RFID_TOPIC)` and publishes to
`RFID_TOPIC`; the broker delivers on a topic matching that filter.  Matching
is per `/`-separated level: `+` matches one level, a final `#` matches any
remainder (including the parent level). -/

def splitLevels : List Nat → List (List Nat)
  | [] => [[]]
  | c :: rest =>
      if c = 47 then [] :: splitLevels rest
      else
        match splitLevels rest with
        | [] => [[c]]
        | lv :: lvs => (c :: lv) :: lvs

def joinLevels : List (List Nat) → List Nat
  | [] => []
  | [lv] => lv
  | lv :: lvs => lv ++ 47 :: joinLevels lvs

def matchLevels : List (List Nat) → List (List Nat) → Bool
  | [], ts => ts.isEmpty
  | lv :: lvs, ts =>
      if lv == [35] && lvs.isEmpty then true
      else
        match ts with
        | [] => false
        | t :: ts2 => (lv == [43] || lv == t) && matchLevels lvs ts2

def topicMatchesFilter (filter topic : List Nat) : Bool :=
  matchLevels (splitLevels filter) (splitLevels topic)

/-! ## The process: `main` and `_connect_rabbitmq`

Embeds `mqtt_relay.py` lines 56-65 and 110-138 as a trace of observable
broker-client operations plus the process outcome.  `Env` supplies the
environment's nondeterminism: whether each TCP `connect` raises `OSError`,
the Mosquitto CONNACK return code delivered to `on_connect`, the messages
delivered while subscribed, and whether the user interrupts. The outcome is
`some code` when the process terminates (Python exits 1 on an uncaught
exception) and `none` when it keeps running (`loop_forever`). A callback
exception (paho re-raises it out of `loop_forever`, the default
`suppress_exceptions` being false) ends message processing, runs the
`finally` block and exits 1. -/

inductive Event where
  | rabbitConnectOk
  | rabbitConnectFail
  | rabbitLoopStart
  | logErrorRabbit
  | mosquittoConnectOk
  | mosquittoConnectFail
  | logErrorMosquitto
  | logErrorConnack (rc : Nat)
  | mosquittoSubscribe
  | forward (payload : List Nat)
  | mosquittoDisconnect
  | rabbitLoopStop
  | rabbitDisconnect
  deriving DecidableEq

structure Env where
  rabbitConnectOk : Bool
  mosquittoConnectOk : Bool
  connackRc : Nat
  messages : List (List Nat × List Nat × Nat)
  interrupted : Bool

structure MainResult where
  trace : List Event
  outcome : Option Nat

/-- Deliver the subscribed messages in order to `on_message`; produces the
forward events of the publish calls made, and whether a handler exception
ended the receive loop. -/
def processMsgs (t : List Nat) : List (List Nat × List Nat × Nat) → List Event × Bool
  | [] => ([], false)
  | (mt, mp, mq) :: rest =>
      let r := on_message t 0 0 mt mp mq
      let evs := r.publishes.map (fun pub => Event.forward pub.2.1)
      match r.exc with
      | some _ => (evs, true)
      | none =>
          let p := processMsgs t rest
          (evs ++ p.1, p.2)

def shutdownEvents : List Event :=
  [Event.mosquittoDisconnect, Event.rabbitLoopStop, Event.rabbitDisconnect]

def mainRun (t : List Nat) (env : Env) : MainResult :=
  if env.rabbitConnectOk then
    let pre := [Event.rabbitConnectOk, Event.rabbitLoopStart]
    if env.mosquittoConnectOk then
      let connEvs :=
        if env.connackRc = 0 then [Event.mosquittoConnectOk, Event.mosquittoSubscribe]
        else [Event.mosquittoConnectOk, Event.logErrorConnack env.connackRc]
      let p := if env.connackRc = 0 then processMsgs t env.messages else ([], false)
      if p.2 then
        ⟨pre ++ connEvs ++ p.1 ++ shutdownEvents, some 1⟩
      else if env.interrupted then
        ⟨pre ++ connEvs ++ p.1 ++ shutdownEvents, some 0⟩
      else
        ⟨pre ++ connEvs ++ p.1, none⟩
    else
      ⟨pre ++ [Event.mosquittoConnectFail, Event.logErrorMosquitto,
               Event.rabbitLoopStop, Event.rabbitDisconnect], some 1⟩
  else
    ⟨[Event.rabbitConnectFail, Event.logErrorRabbit], some 1⟩

/-- The default relay topic, `"rfid/scan"`. -/
def rfidScanTopic : List Nat := [114, 102, 105, 100, 47, 115, 99, 97, 110]

/-! ## Helper lemmas -/

theorem splitLevels_ne_nil (l : List Nat) : splitLevels l ≠ [] := by
  match l with
  | [] => simp [splitLevels]
  | c :: rest =>
    unfold splitLevels
    split_ifs
    · simp
    · cases splitLevels rest <;> simp

theorem joinLevels_splitLevels (l : List Nat) : joinLevels (splitLevels l) = l := by
  induction l with
  | nil => rfl
  | cons c rest ih =>
    rw [splitLevels]
    by_cases hc : c = 47
    · rw [if_pos hc]
      cases hS : splitLevels rest with
      | nil => exact absurd hS (splitLevels_ne_nil rest)
      | cons lv lvs =>
        rw [hS] at ih
        simp only [joinLevels, List.nil_append]
        rw [ih, hc]
    · rw [if_neg hc]
      cases hS : splitLevels rest with
      | nil => exact absurd hS (splitLevels_ne_nil rest)
      | cons lv lvs =>
        rw [hS] at ih
        dsimp only
        cases lvs with
        | nil =>
          simp only [joinLevels] at ih ⊢
          rw [ih]
        | cons lv2 lvs2 =>
          simp only [joinLevels, List.cons_append] at ih ⊢
          rw [ih]

theorem mem_of_mem_splitLevels (x : Nat) (l : List Nat) :
    ∀ lv, lv ∈ splitLevels l → x ∈ lv → x ∈ l := by
  induction l with
  | nil =>
    intro lv hlv hx
    simp only [splitLevels, List.mem_singleton] at hlv
    subst hlv
    simp at hx
  | cons c rest ih =>
    intro lv hlv hx
    rw [splitLevels] at hlv
    by_cases hc : c = 47
    · rw [if_pos hc] at hlv
      rcases List.mem_cons.mp hlv with h | h
      · subst h; simp at hx
      · exact List.mem_cons_of_mem _ (ih lv h hx)
    · rw [if_neg hc] at hlv
      cases hS : splitLevels rest with
      | nil => exact absurd hS (splitLevels_ne_nil rest)
      | cons m ms =>
        rw [hS] at hlv
        dsimp only at hlv
        rcases List.mem_cons.mp hlv with h | h
        · subst h
          rcases List.mem_cons.mp hx with h2 | h2
          · subst h2; exact List.mem_cons_self _ _
          · exact List.mem_cons_of_mem _
              (ih m (by rw [hS]; exact List.mem_cons_self m ms) h2)
        · exact List.mem_cons_of_mem _
            (ih lv (by rw [hS]; exact List.mem_cons_of_mem m h) hx)

theorem matchLevels_eq (fs : List (List Nat)) :
    ∀ ts, (∀ lv ∈ fs, lv ≠ [35] ∧ lv ≠ [43]) → matchLevels fs ts = true → fs = ts := by
  induction fs with
  | nil =>
    intro ts _ h
    simp only [matchLevels, List.isEmpty_iff] at h
    rw [h]
  | cons lv lvs ih =>
    intro ts hno h
    obtain ⟨h35, h43⟩ := hno lv (List.mem_cons_self _ _)
    unfold matchLevels at h
    rw [if_neg (by simp [h35])] at h
    cases ts with
    | nil => simp at h
    | cons t ts2 =>
      simp only [Bool.and_eq_true, Bool.or_eq_true, beq_iff_eq] at h
      obtain ⟨hlv, hrec⟩ := h
      rcases hlv with hlv | hlv
      · exact absurd hlv h43
      · subst hlv
        rw [ih ts2 (fun m hm => hno m (List.mem_cons_of_mem _ hm)) hrec]

theorem filter_eq_of_no_wildcard (f t : List Nat)
    (h35 : 35 ∉ f) (h43 : 43 ∉ f) (hm : topicMatchesFilter f t = true) : f = t := by
  have hlv : ∀ lv ∈ splitLevels f, lv ≠ [35] ∧ lv ≠ [43] := by
    intro lv hlvmem
    constructor
    · intro he
      subst he
      exact h35 (mem_of_mem_splitLevels 35 f [35] hlvmem (by simp))
    · intro he
      subst he
      exact h43 (mem_of_mem_splitLevels 43 f [43] hlvmem (by simp))
  have hsplit : splitLevels f = splitLevels t :=
    matchLevels_eq (splitLevels f) (splitLevels t) hlv hm
  have := congrArg joinLevels hsplit
  rwa [joinLevels_splitLevels, joinLevels_splitLevels] at this

theorem on_message_decodeFail (rfidTopic : List Nat) (pubRc pubMid : Nat)
    (msgTopic msgPayload : List Nat) (msgQos : Nat)
    (hdec : utf8Decode msgPayload = none) :
    on_message rfidTopic pubRc pubMid msgTopic msgPayload msgQos
      = ⟨[], [], some PyErr.unicodeDecodeError⟩ := by
  unfold on_message
  rw [hdec]

theorem on_message_typeErr (rfidTopic : List Nat) (pubRc pubMid : Nat)
    (msgTopic msgPayload s : List Nat) (msgQos : Nat)
    (hdec : utf8Decode msgPayload = some s) (hw : parseWarnings s = none) :
    on_message rfidTopic pubRc pubMid msgTopic msgPayload msgQos
      = ⟨[], [LogEvent.infoReceived msgTopic s], some PyErr.typeError⟩ := by
  unfold on_message
  rw [hdec]
  dsimp only
  rw [hw]

theorem on_message_forwards (rfidTopic : List Nat) (pubRc pubMid : Nat)
    (msgTopic msgPayload s : List Nat) (msgQos : Nat) (warns : List LogEvent)
    (hdec : utf8Decode msgPayload = some s) (hw : parseWarnings s = some warns) :
    on_message rfidTopic pubRc pubMid msgTopic msgPayload msgQos
      = ⟨[(rfidTopic, msgPayload, 1)],
         LogEvent.infoReceived msgTopic s :: warns ++ [pubLogEvent pubRc pubMid],
         none⟩ := by
  unfold on_message
  rw [hdec]
  dsimp only
  rw [hw]
  dsimp only
  rw [utf8Decode_encode msgPayload s hdec]

/-! ## Claims -/

/-- C1 counterexample: the claim quantifies over every payload received, but
the payload consisting of the single byte `0x80` is not valid UTF-8, so
`msg.payload.decode("utf-8")` raises an uncaught `UnicodeDecodeError` and no
publish call at all is made — not exactly one byte-identical publish. -/
theorem c1_cex :
    (on_message rfidScanTopic 0 1 rfidScanTopic [128] 1).publishes = [] ∧
    (on_message rfidScanTopic 0 1 rfidScanTopic [128] 1).publishes.length ≠ 1 ∧
    (on_message rfidScanTopic 0 1 rfidScanTopic [128] 1).exc
      = some PyErr.unicodeDecodeError :=
  ⟨rfl, by decide, rfl⟩

/-- C1 (amended): for every payload that is valid UTF-8 and whose parse step
does not raise (`json.loads` fails, or yields a value on which the `tag_id`
membership test is defined — an object, array or string), the handler makes
exactly one publish call to the destination, and since the strict UTF-8
decode is a byte-identity round trip with the re-encode at publish, its
payload bytes are identical to the received payload bytes. -/
theorem c1_forwarding_fidelity (rfidTopic : List Nat) (pubRc pubMid : Nat)
    (msgTopic payload s : List Nat) (msgQos : Nat)
    (hdec : utf8Decode payload = some s) (hok : parseStepOk s = true) :
    (on_message rfidTopic pubRc pubMid msgTopic payload msgQos).publishes
      = [(rfidTopic, payload, 1)] := by
  unfold parseStepOk at hok
  obtain ⟨ws, hw⟩ := Option.isSome_iff_exists.mp hok
  rw [on_message_forwards rfidTopic pubRc pubMid msgTopic payload s msgQos ws hdec hw]

/-- Witness for C1 at the payload `{"tag_id":"x"}`. -/
theorem c1_witness :
    utf8Decode [123, 34, 116, 97, 103, 95, 105, 100, 34, 58, 34, 120, 34, 125]
        = some [123, 34, 116, 97, 103, 95, 105, 100, 34, 58, 34, 120, 34, 125] ∧
    parseStepOk [123, 34, 116, 97, 103, 95, 105, 100, 34, 58, 34, 120, 34, 125] = true ∧
    (on_message rfidScanTopic 0 7 rfidScanTopic
        [123, 34, 116, 97, 103, 95, 105, 100, 34, 58, 34, 120, 34, 125] 1).publishes
      = [(rfidScanTopic,
          [123, 34, 116, 97, 103, 95, 105, 100, 34, 58, 34, 120, 34, 125], 1)] :=
  ⟨rfl, rfl,
   c1_forwarding_fidelity rfidScanTopic 0 7 rfidScanTopic
     [123, 34, 116, 97, 103, 95, 105, 100, 34, 58, 34, 120, 34, 125]
     [123, 34, 116, 97, 103, 95, 105, 100, 34, 58, 34, 120, 34, 125] 1 rfl rfl⟩

/-- C2 counterexample: a message received with QoS 0 (at-most-once) is
republished with QoS 1, so the publish QoS is not the QoS the source message
specified. -/
theorem c2_cex :
    (on_message rfidScanTopic 0 1 rfidScanTopic [123, 125] 0).publishes
      = [(rfidScanTopic, [123, 125], 1)] ∧ (1 : Nat) ≠ 0 :=
  ⟨rfl, by decide⟩

/-- C2 (amended): every publish call the handler makes uses QoS 1
(at-least-once) unconditionally — `publish(RFID_TOPIC, payload_str, qos=1)`
hardcodes it — regardless of the QoS of the received message. -/
theorem c2_qos_always_one (rfidTopic : List Nat) (pubRc pubMid : Nat)
    (msgTopic msgPayload : List Nat) (msgQos : Nat) :
    ((on_message rfidTopic pubRc pubMid msgTopic msgPayload msgQos).publishes).all
      (fun pub => pub.2.2 == 1) = true := by
  cases hu : utf8Decode msgPayload with
  | none =>
    rw [on_message_decodeFail rfidTopic pubRc pubMid msgTopic msgPayload msgQos hu]
    rfl
  | some s =>
    cases hw : parseWarnings s with
    | none =>
      rw [on_message_typeErr rfidTopic pubRc pubMid msgTopic msgPayload s msgQos hu hw]
      rfl
    | some ws =>
      rw [on_message_forwards rfidTopic pubRc pubMid msgTopic msgPayload s msgQos ws hu hw]
      rfl

/-- C3: every publish call the handler makes uses exactly the topic the
message was received on, provided the configured subscription filter
contains no MQTT wildcard character (`#`, `+`) — the operating assumption
the specification states — so that the delivered topic, which matches the
filter, is the filter itself. -/
theorem c3_topic_no_remap (rfidTopic msgTopic payload : List Nat)
    (pubRc pubMid msgQos : Nat)
    (h35 : 35 ∉ rfidTopic) (h43 : 43 ∉ rfidTopic)
    (hm : topicMatchesFilter rfidTopic msgTopic = true) :
    ∀ pub ∈ (on_message rfidTopic pubRc pubMid msgTopic payload msgQos).publishes,
      pub.1 = msgTopic := by
  have heq : rfidTopic = msgTopic := filter_eq_of_no_wildcard rfidTopic msgTopic h35 h43 hm
  subst heq
  intro pub hpub
  cases hu : utf8Decode payload with
  | none =>
    rw [on_message_decodeFail rfidTopic pubRc pubMid rfidTopic payload msgQos hu] at hpub
    simp at hpub
  | some s =>
    cases hw : parseWarnings s with
    | none =>
      rw [on_message_typeErr rfidTopic pubRc pubMid rfidTopic payload s msgQos hu hw] at hpub
      simp at hpub
    | some ws =>
      rw [on_message_forwards rfidTopic pubRc pubMid rfidTopic payload s msgQos ws hu hw]
        at hpub
      simp only [List.mem_singleton] at hpub
      rw [hpub]

/-- Witness for C3 at the default topic `rfid/scan` and payload `hi`. -/
theorem c3_witness :
    (35 ∉ rfidScanTopic) ∧ (43 ∉ rfidScanTopic) ∧
    topicMatchesFilter rfidScanTopic rfidScanTopic = true ∧
    (∀ pub ∈ (on_message rfidScanTopic 0 1 rfidScanTopic [104, 105] 0).publishes,
      pub.1 = rfidScanTopic) :=
  ⟨by decide, by decide, by decide,
   c3_topic_no_remap rfidScanTopic rfidScanTopic [104, 105] 0 1 0
     (by decide) (by decide) (by decide)⟩

/-- C4 counterexample: the payload consisting of the single byte `0xFF`
fails the UTF-8 decode, no warning (indeed no log record at all) is emitted,
and the message is dropped by the uncaught `UnicodeDecodeError` — solely
because of its format. -/
theorem c4_cex :
    (on_message rfidScanTopic 0 1 rfidScanTopic [255] 1).publishes = [] ∧
    (on_message rfidScanTopic 0 1 rfidScanTopic [255] 1).logs = [] ∧
    (on_message rfidScanTopic 0 1 rfidScanTopic [255] 1).exc
      = some PyErr.unicodeDecodeError :=
  ⟨rfl, rfl, rfl⟩

/-- C4 (amended): for every inbound message whose payload is valid UTF-8 and
whose parse step does not raise the uncaught `TypeError` (i.e. `json.loads`
fails, or yields an object/array/string), the handler raises no exception,
forwards the message unchanged in a single publish call, and logs the
not-valid-JSON warning when the parse fails.  A payload that is not valid
UTF-8, or that parses to a bare number/boolean/null, is instead dropped by
an uncaught exception. -/
theorem c4_parse_error_passthrough (rfidTopic : List Nat) (pubRc pubMid : Nat)
    (msgTopic payload s : List Nat) (msgQos : Nat)
    (hdec : utf8Decode payload = some s) (hok : parseStepOk s = true) :
    (on_message rfidTopic pubRc pubMid msgTopic payload msgQos).publishes
        = [(rfidTopic, payload, 1)] ∧
    (on_message rfidTopic pubRc pubMid msgTopic payload msgQos).exc = none ∧
    (json_loads s = none →
      LogEvent.warnNotJson ∈ (on_message rfidTopic pubRc pubMid msgTopic payload msgQos).logs) := by
  unfold parseStepOk at hok
  obtain ⟨ws, hw⟩ := Option.isSome_iff_exists.mp hok
  rw [on_message_forwards rfidTopic pubRc pubMid msgTopic payload s msgQos ws hdec hw]
  refine ⟨rfl, rfl, ?_⟩
  intro hj
  have hwn : parseWarnings s = some [LogEvent.warnNotJson] := by
    unfold parseWarnings
    rw [hj]
  rw [hw] at hwn
  simp only [Option.some.injEq] at hwn
  subst hwn
  simp

/-- Witness for C4 at the non-JSON payload `hello`. -/
theorem c4_witness :
    utf8Decode [104, 101, 108, 108, 111] = some [104, 101, 108, 108, 111] ∧
    parseStepOk [104, 101, 108, 108, 111] = true ∧
    ((on_message rfidScanTopic 0 3 rfidScanTopic [104, 101, 108, 108, 111] 1).publishes
        = [(rfidScanTopic, [104, 101, 108, 108, 111], 1)] ∧
     (on_message rfidScanTopic 0 3 rfidScanTopic [104, 101, 108, 108, 111] 1).exc = none ∧
     (json_loads [104, 101, 108, 108, 111] = none →
       LogEvent.warnNotJson ∈
         (on_message rfidScanTopic 0 3 rfidScanTopic [104, 101, 108, 108, 111] 1).logs)) :=
  ⟨rfl, rfl,
   c4_parse_error_passthrough rfidScanTopic 0 3 rfidScanTopic
     [104, 101, 108, 108, 111] [104, 101, 108, 108, 111] 1 rfl rfl⟩

/-- C5 counterexample: the payload `5` is valid UTF-8 text and valid JSON
lacking a `tag_id` field, yet the handler publishes nothing and logs no
warning: `"tag_id" not in 5` raises an uncaught `TypeError` and the message
is dropped. -/
theorem c5_cex :
    (on_message rfidScanTopic 0 1 rfidScanTopic [53] 1).publishes = [] ∧
    ((on_message rfidScanTopic 0 1 rfidScanTopic [53] 1).logs.any LogEvent.isWarning)
      = false ∧
    (on_message rfidScanTopic 0 1 rfidScanTopic [53] 1).exc = some PyErr.typeError ∧
    json_loads [53] = some JValue.jnum :=
  ⟨rfl, rfl, rfl, rfl⟩

/-- C5 (amended): for every valid-UTF-8 payload that either is not valid
JSON, or parses to a value on which the membership test `"tag_id" in payload`
is defined and evaluates false (object without the key, array without the
string, string without the substring), the relay logs a warning and still
publishes the payload unchanged.  Payloads parsing to a number, boolean or
null instead raise an uncaught `TypeError` and are dropped without warning. -/
theorem c5_malformed_passthrough (rfidTopic : List Nat) (pubRc pubMid : Nat)
    (msgTopic payload s : List Nat) (msgQos : Nat)
    (hdec : utf8Decode payload = some s)
    (hfail : json_loads s = none ∨
      ∃ v, json_loads s = some v ∧ pyContainsTagId v = some false) :
    (on_message rfidTopic pubRc pubMid msgTopic payload msgQos).publishes
        = [(rfidTopic, payload, 1)] ∧
    ((on_message rfidTopic pubRc pubMid msgTopic payload msgQos).logs.any
        LogEvent.isWarning) = true := by
  have hw : parseWarnings s = some [LogEvent.warnNotJson] ∨
      parseWarnings s = some [LogEvent.warnMissingTagId] := by
    rcases hfail with hj | ⟨v, hj, hc⟩
    · left
      unfold parseWarnings
      rw [hj]
    · right
      unfold parseWarnings
      rw [hj]
      dsimp only
      rw [hc]
  rcases hw with hw | hw <;>
  · rw [on_message_forwards rfidTopic pubRc pubMid msgTopic payload s msgQos _ hdec hw]
    exact ⟨rfl, by simp [LogEvent.isWarning]⟩

/-- Witness for C5 at the non-JSON payload `hello`. -/
theorem c5_witness :
    utf8Decode [104, 101, 108, 108, 111] = some [104, 101, 108, 108, 111] ∧
    json_loads [104, 101, 108, 108, 111] = none ∧
    ((on_message rfidScanTopic 2 1 rfidScanTopic [104, 101, 108, 108, 111] 1).publishes
        = [(rfidScanTopic, [104, 101, 108, 108, 111], 1)] ∧
     ((on_message rfidScanTopic 2 1 rfidScanTopic [104, 101, 108, 108, 111] 1).logs.any
        LogEvent.isWarning) = true) :=
  ⟨rfl, rfl,
   c5_malformed_passthrough rfidScanTopic 2 1 rfidScanTopic
     [104, 101, 108, 108, 111] [104, 101, 108, 108, 111] 1 rfl (Or.inl rfl)⟩

/-- C6: if the RabbitMQ (destination) connection fails at startup, `main`
raises out of `_connect_rabbitmq` before the Mosquitto client is even
created: the process exits with non-zero status and the trace contains no
source-side connect or subscribe operation. -/
theorem c6_startup_ordering (t : List Nat) (env : Env)
    (h : env.rabbitConnectOk = false) :
    (mainRun t env).outcome = some 1 ∧
    Event.mosquittoSubscribe ∉ (mainRun t env).trace ∧
    Event.mosquittoConnectOk ∉ (mainRun t env).trace ∧
    Event.mosquittoConnectFail ∉ (mainRun t env).trace := by
  refine ⟨?_, ?_, ?_, ?_⟩ <;> simp [mainRun, h]

/-- Witness for C6: destination connect fails. -/
theorem c6_witness :
    (Env.mk false true 0 [] false).rabbitConnectOk = false ∧
    ((mainRun rfidScanTopic (Env.mk false true 0 [] false)).outcome = some 1 ∧
     Event.mosquittoSubscribe ∉ (mainRun rfidScanTopic (Env.mk false true 0 [] false)).trace ∧
     Event.mosquittoConnectOk ∉ (mainRun rfidScanTopic (Env.mk false true 0 [] false)).trace ∧
     Event.mosquittoConnectFail ∉
       (mainRun rfidScanTopic (Env.mk false true 0 [] false)).trace) :=
  ⟨rfl, c6_startup_ordering rfidScanTopic (Env.mk false true 0 [] false) rfl⟩

/-- C7 counterexample: when the source broker refuses the connection at the
MQTT level (CONNACK rc = 5, authentication rejected), `on_connect` only logs
an error: the process does not terminate (`loop_forever` keeps running) and
never subscribes — it continues running unsubscribed, contradicting the
claimed non-zero-exit termination. -/
theorem c7_cex :
    (mainRun rfidScanTopic (Env.mk true true 5 [] false)).outcome = none ∧
    Event.mosquittoSubscribe ∉ (mainRun rfidScanTopic (Env.mk true true 5 [] false)).trace ∧
    Event.logErrorConnack 5 ∈ (mainRun rfidScanTopic (Env.mk true true 5 [] false)).trace :=
  ⟨rfl, by decide, by decide⟩

/-- C7 (amended): a startup failure that raises from either TCP `connect`
call (`OSError`) is logged and terminates the process with non-zero status;
but a source-broker CONNACK refusal (e.g. authentication rejected) is only
logged as an error by `on_connect` — the process then keeps running without
a subscription. -/
theorem c7_startup_connect_failure (t : List Nat) (env : Env)
    (h : env.rabbitConnectOk = false ∨ env.mosquittoConnectOk = false) :
    (mainRun t env).outcome = some 1 ∧
    (Event.logErrorRabbit ∈ (mainRun t env).trace ∨
     Event.logErrorMosquitto ∈ (mainRun t env).trace) := by
  cases hr : env.rabbitConnectOk with
  | false => refine ⟨?_, Or.inl ?_⟩ <;> simp [mainRun, hr]
  | true =>
    have hm : env.mosquittoConnectOk = false := by
      rcases h with h | h
      · simp [h] at hr
      · exact h
    refine ⟨?_, Or.inr ?_⟩ <;> simp [mainRun, hr, hm]

/-- Witness for C7: source TCP connect fails. -/
theorem c7_witness :
    ((Env.mk true false 0 [] false).rabbitConnectOk = false ∨
     (Env.mk true false 0 [] false).mosquittoConnectOk = false) ∧
    ((mainRun rfidScanTopic (Env.mk true false 0 [] false)).outcome = some 1 ∧
     (Event.logErrorRabbit ∈ (mainRun rfidScanTopic (Env.mk true false 0 [] false)).trace ∨
      Event.logErrorMosquitto ∈
        (mainRun rfidScanTopic (Env.mk true false 0 [] false)).trace)) :=
  ⟨Or.inr rfl,
   c7_startup_connect_failure rfidScanTopic (Env.mk true false 0 [] false) (Or.inr rfl)⟩

/-- C8: on a user interruption during normal operation (both links up,
subscribed, no poison message), the trace ends with the source client's
disconnect followed by the destination teardown (`loop_stop`, `disconnect`)
— reverse of startup order — no forward event occurs after the signal, and
the process exits 0. -/
theorem c8_shutdown_ordering (t : List Nat) (env : Env)
    (h1 : env.rabbitConnectOk = true) (h2 : env.mosquittoConnectOk = true)
    (h3 : env.connackRc = 0) (h4 : (processMsgs t env.messages).2 = false)
    (h5 : env.interrupted = true) :
    (∃ pre, (mainRun t env).trace = pre ++ shutdownEvents) ∧
    (mainRun t env).outcome = some 0 ∧
    (∀ pl, Event.forward pl ∉ shutdownEvents) := by
  refine ⟨⟨[Event.rabbitConnectOk, Event.rabbitLoopStart, Event.mosquittoConnectOk,
            Event.mosquittoSubscribe] ++ (processMsgs t env.messages).1, ?_⟩, ?_, ?_⟩
  · simp [mainRun, h1, h2, h3, h4, h5]
  · simp [mainRun, h1, h2, h3, h4, h5]
  · intro pl
    simp [shutdownEvents]

/-- Witness for C8: both links up, no messages, user interrupt. -/
theorem c8_witness :
    (Env.mk true true 0 [] true).rabbitConnectOk = true ∧
    (Env.mk true true 0 [] true).mosquittoConnectOk = true ∧
    (Env.mk true true 0 [] true).connackRc = 0 ∧
    (processMsgs rfidScanTopic (Env.mk true true 0 [] true).messages).2 = false ∧
    (Env.mk true true 0 [] true).interrupted = true ∧
    ((∃ pre, (mainRun rfidScanTopic (Env.mk true true 0 [] true)).trace
        = pre ++ shutdownEvents) ∧
     (mainRun rfidScanTopic (Env.mk true true 0 [] true)).outcome = some 0 ∧
     (∀ pl, Event.forward pl ∉ shutdownEvents)) :=
  ⟨rfl, rfl, rfl, rfl, rfl,
   c8_shutdown_ordering rfidScanTopic (Env.mk true true 0 [] true) rfl rfl rfl rfl rfl⟩

/-- C9 counterexample: a received message whose payload is the single
non-UTF-8 byte `0xFE` produces zero publish attempts, not exactly one. -/
theorem c9_cex :
    (on_message rfidScanTopic 0 1 rfidScanTopic [254] 1).publishes.length = 0 ∧
    (on_message rfidScanTopic 0 1 rfidScanTopic [254] 1).publishes.length ≠ 1 :=
  ⟨rfl, by decide⟩

/-- C9 (amended): for every received message that reaches the publish step
(valid UTF-8, parse step does not raise), exactly one publish attempt is
made; if it fails (rc ≠ 0) the failure is logged as an error, the message is
not retried (still exactly one attempt), and the handler raises nothing, so
processing of subsequent messages continues. -/
theorem c9_single_publish_attempt (rfidTopic : List Nat) (pubRc pubMid : Nat)
    (msgTopic payload s : List Nat) (msgQos : Nat)
    (hdec : utf8Decode payload = some s) (hok : parseStepOk s = true)
    (hrc : pubRc ≠ 0) :
    (on_message rfidTopic pubRc pubMid msgTopic payload msgQos).publishes.length = 1 ∧
    LogEvent.errorPublishFailed pubRc
      ∈ (on_message rfidTopic pubRc pubMid msgTopic payload msgQos).logs ∧
    (on_message rfidTopic pubRc pubMid msgTopic payload msgQos).exc = none := by
  unfold parseStepOk at hok
  obtain ⟨ws, hw⟩ := Option.isSome_iff_exists.mp hok
  rw [on_message_forwards rfidTopic pubRc pubMid msgTopic payload s msgQos ws hdec hw]
  refine ⟨rfl, ?_, rfl⟩
  simp [pubLogEvent, hrc]

/-- Witness for C9: payload `hello`, publish fails with rc = 3. -/
theorem c9_witness :
    utf8Decode [104, 101, 108, 108, 111] = some [104, 101, 108, 108, 111] ∧
    parseStepOk [104, 101, 108, 108, 111] = true ∧
    (3 : Nat) ≠ 0 ∧
    ((on_message rfidScanTopic 3 9 rfidScanTopic [104, 101, 108, 108, 111] 1).publishes.length
        = 1 ∧
     LogEvent.errorPublishFailed 3
       ∈ (on_message rfidScanTopic 3 9 rfidScanTopic [104, 101, 108, 108, 111] 1).logs ∧
     (on_message rfidScanTopic 3 9 rfidScanTopic [104, 101, 108, 108, 111] 1).exc = none) :=
  ⟨rfl, rfl, by decide,
   c9_single_publish_attempt rfidScanTopic 3 9 rfidScanTopic
     [104, 101, 108, 108, 111] [104, 101, 108, 108, 111] 1 rfl rfl (by decide)⟩

/-- C10: if the Mosquitto TCP connect raises after the RabbitMQ connection
already succeeded, the `except` block stops the RabbitMQ network loop and
disconnects it before re-raising: the trace ends with `loop_stop` then
`disconnect` on the destination and the process exits non-zero. -/
theorem c10_cleanup_on_source_failure (t : List Nat) (env : Env)
    (h1 : env.rabbitConnectOk = true) (h2 : env.mosquittoConnectOk = false) :
    (mainRun t env).trace
      = [Event.rabbitConnectOk, Event.rabbitLoopStart, Event.mosquittoConnectFail,
         Event.logErrorMosquitto, Event.rabbitLoopStop, Event.rabbitDisconnect] ∧
    (mainRun t env).outcome = some 1 := by
  refine ⟨?_, ?_⟩ <;> simp [mainRun, h1, h2]

/-- Witness for C10: destination up, source TCP connect fails. -/
theorem c10_witness :
    (Env.mk true false 0 [] false).rabbitConnectOk = true ∧
    (Env.mk true false 0 [] false).mosquittoConnectOk = false ∧
    ((mainRun rfidScanTopic (Env.mk true false 0 [] false)).trace
        = [Event.rabbitConnectOk, Event.rabbitLoopStart, Event.mosquittoConnectFail,
           Event.logErrorMosquitto, Event.rabbitLoopStop, Event.rabbitDisconnect] ∧
     (mainRun rfidScanTopic (Env.mk true false 0 [] false)).outcome = some 1) :=
  ⟨rfl, rfl,
   c10_cleanup_on_source_failure rfidScanTopic (Env.mk true false 0 [] false) rfl rfl⟩

end MqttRelay
